import Mathlib

set_option maxHeartbeats 1000000

/-!
Shallow embedding of `pg_backup_s3.py`, a PostgreSQL backup/restore tool
storing dump artifacts in an S3 bucket.  The three operations
(`create_backup`, `list_backups`, `restore_backup`) are modelled as pure
functions from an explicit environment (outcomes of the external collaborators:
the dump/restore tool, the object store, the administrative database
connection) to a run record collecting the observable effects (calls made,
store contents, local-file state, which exception handler fired, and whether
an exception escaped the function uncaught).
-/

/-- Python `fragment in key` substring containment, on lists of characters. -/
def substrB (n : List Char) : List Char → Bool
  | [] => n.isEmpty
  | c :: t => n.isPrefixOf (c :: t) || substrB n t

instance : IsTotal String (fun a b => b ≤ a) :=
  ⟨fun a b => le_total b a⟩

instance : IsTrans String (fun a b => b ≤ a) :=
  ⟨fun _ _ _ hab hbc => le_trans hbc hab⟩

/-- Python `sorted(keys, reverse=True)`: sort in descending lexical order
(insertion sort; on `String` keys any correct sort computes the same list). -/
def sortedDesc (l : List String) : List String :=
  l.insertionSort (fun a b => b ≤ a)

/-- Python exception classes that appear in the except clauses of the script. -/
inductive PyExc
  | calledProcessError
  | noCredentialsError
  | clientError
  | operationalError
  | otherError
deriving DecidableEq

/-- The configuration relevant to the observable behaviour: the target
database name (`DB_NAME`), which flows into artifact names, the terminate
query and the DROP/CREATE statements.  Host, port, user and credentials are
passed to the external tools verbatim and do not influence any modelled
observable. -/
structure Config where
  dbName : String
deriving DecidableEq

/-- A timestamp at second resolution, as produced by
`datetime.now().strftime("%Y-%m-%d_%H-%M-%S")`. -/
structure Timestamp where
  year : Nat
  month : Nat
  day : Nat
  hour : Nat
  minute : Nat
  second : Nat
deriving DecidableEq

/-- The range representable by Python `datetime` and rendered with fixed
field widths by `strftime` (year zero-padded to 4 digits, all other fields
to 2 digits). -/
def Timestamp.valid (t : Timestamp) : Prop :=
  t.year ≤ 9999 ∧ t.month ≤ 12 ∧ t.day ≤ 31 ∧ t.hour ≤ 23 ∧ t.minute ≤ 59 ∧ t.second ≤ 59

instance (t : Timestamp) : Decidable t.valid := by
  unfold Timestamp.valid
  infer_instance

/-- Chronological order on timestamps: lexicographic on
(year, month, day, hour, minute, second). -/
def Timestamp.chronoLT (a b : Timestamp) : Prop :=
  a.year < b.year ∨ (a.year = b.year ∧ (a.month < b.month ∨ (a.month = b.month ∧
    (a.day < b.day ∨ (a.day = b.day ∧ (a.hour < b.hour ∨ (a.hour = b.hour ∧
    (a.minute < b.minute ∨ (a.minute = b.minute ∧ a.second < b.second)))))))))

instance (a b : Timestamp) : Decidable (Timestamp.chronoLT a b) := by
  unfold Timestamp.chronoLT
  infer_instance

/-- The `w` low decimal digits of `n`, most significant first, zero-padded:
the fixed-width decimal rendering used by `strftime` for each field. -/
def natDigits (w n : Nat) : List Char :=
  match w with
  | 0 => []
  | Nat.succ v => Char.ofNat (48 + n / 10 ^ v % 10) :: natDigits v n

/-- `strftime("%Y-%m-%d_%H-%M-%S")`. -/
def formatTimestamp (t : Timestamp) : List Char :=
  natDigits 4 t.year ++ ['-'] ++ natDigits 2 t.month ++ ['-'] ++ natDigits 2 t.day ++
    ['_'] ++ natDigits 2 t.hour ++ ['-'] ++ natDigits 2 t.minute ++ ['-'] ++
    natDigits 2 t.second

/-- The snapshot identifier: `f"backup_{DB_NAME}_{timestamp}.sql"`. -/
def make_identifier (dbName : String) (t : Timestamp) : String :=
  ("backup_") ++ dbName ++ ("_") ++ String.mk (formatTimestamp t) ++ (".sql")

/-- Inlined date selection of `restore_backup`: filter the listed keys to
those containing the fragment, return the first element of the
reverse-sorted matches, or nothing when there are no matches. -/
def find_best_match (keys : List String) (fragment : String) : Option String :=
  let matching := keys.filter (fun k => substrB fragment.data k.data)
  if matching.isEmpty then none
  else some ((sortedDesc matching).headD (""))

/-- Outcome of the `list_objects_v2` call made by `list_backups`. -/
inductive StoreListOutcome
  | ok
  | clientError
  | noCredentials
deriving DecidableEq

/-- Observables of one `list_backups` run: the enumerated keys printed,
which except clause fired, and any exception that escaped the function. -/
structure ListRun where
  printed : List String
  caught : Option PyExc
  uncaught : Option PyExc
deriving DecidableEq

/-- `list_backups`: list the bucket, print the keys reverse-sorted; an empty
bucket prints nothing and is not an error.  Only `ClientError` is caught;
a `NoCredentialsError` escapes the function uncaught. -/
def list_backups (keys : List String) (outcome : StoreListOutcome) : ListRun :=
  match outcome with
  | StoreListOutcome.ok =>
    match keys with
    | [] => { printed := [], caught := none, uncaught := none }
    | _ => { printed := sortedDesc keys, caught := none, uncaught := none }
  | StoreListOutcome.clientError =>
    { printed := [], caught := some PyExc.clientError, uncaught := none }
  | StoreListOutcome.noCredentials =>
    { printed := [], caught := none, uncaught := some PyExc.noCredentialsError }

/-- Exit code of the process: nonzero exactly when an exception escaped the
invoked operation (the script itself never calls `sys.exit`). -/
def exitCode (r : Option PyExc) : Nat :=
  match r with
  | none => 0
  | some _ => 1

/-- Outcome of the `upload_file` call of `create_backup`. -/
inductive UploadOutcome
  | ok
  | noCredentials
  | clientError
deriving DecidableEq

/-- Environment of one `create_backup` run: whether `pg_dump` exits zero,
whether a failed `pg_dump` left a partially written output file, the upload
outcome, and the keys already in the bucket. -/
structure BackupEnv where
  dumpOk : Bool
  dumpLeftFile : Bool
  upload : UploadOutcome
  storeKeys : List String
deriving DecidableEq

/-- Observables of one `create_backup` run. -/
structure BackupRun where
  dumpCalls : Nat
  uploadCalls : Nat
  storeKeys : List String
  localFileExists : Bool
  caught : Option PyExc
  uncaught : Option PyExc
deriving DecidableEq

/-- `create_backup`: run `pg_dump`, upload the artifact, delete the local
file.  A non-zero `pg_dump` exit raises `CalledProcessError`, caught and
printed, leaving any partial file on disk and skipping the upload.  A failed
upload (`NoCredentialsError`, or `ClientError` via the generic handler) is
caught and printed, leaving the artifact on disk.  Only on successful upload
is the local file removed.  Every exception is caught, none escapes. -/
def create_backup (cfg : Config) (t : Timestamp) (env : BackupEnv) : BackupRun :=
  let backup_file := make_identifier cfg.dbName t
  if env.dumpOk then
    match env.upload with
    | UploadOutcome.ok =>
      { dumpCalls := 1, uploadCalls := 1, storeKeys := env.storeKeys ++ [backup_file],
        localFileExists := false, caught := none, uncaught := none }
    | UploadOutcome.noCredentials =>
      { dumpCalls := 1, uploadCalls := 1, storeKeys := env.storeKeys,
        localFileExists := true, caught := some PyExc.noCredentialsError, uncaught := none }
    | UploadOutcome.clientError =>
      { dumpCalls := 1, uploadCalls := 1, storeKeys := env.storeKeys,
        localFileExists := true, caught := some PyExc.otherError, uncaught := none }
  else
    { dumpCalls := 1, uploadCalls := 0, storeKeys := env.storeKeys,
      localFileExists := env.dumpLeftFile, caught := some PyExc.calledProcessError,
      uncaught := none }

/-- A row of `pg_stat_activity`: a backend pid and the database it is
connected to. -/
structure Session where
  pid : Nat
  datname : String
deriving DecidableEq

/-- The pids selected by the terminate query: sessions whose `datname`
equals the target database and whose pid differs from the pid of the
administrative connection issuing the query (`pg_backend_pid()`). -/
def terminateSet (sessions : List Session) (target : String) (selfPid : Nat) : List Nat :=
  (sessions.filter (fun s => s.datname == target && s.pid != selfPid)).map (fun s => s.pid)

/-- Environment of one `restore_backup` run. -/
structure RestoreEnv where
  storeKeys : List String
  downloadOk : Bool
  connectOk : Bool
  sessions : List Session
  selfPid : Nat
  restoreOk : Bool
deriving DecidableEq

/-- The early-return messages of `restore_backup`. -/
inductive RestoreMsg
  | emptyBucket
  | noMatchForDate
  | missingSelector
deriving DecidableEq

/-- Observables of one `restore_backup` run. -/
structure RestoreRun where
  downloads : Nat
  connects : Nat
  terminateCalls : Nat
  terminatedPids : List Nat
  dropCalls : Nat
  createCalls : Nat
  applyCalls : Nat
  localFileExists : Bool
  earlyMsg : Option RestoreMsg
  caught : Option PyExc
  uncaught : Option PyExc
deriving DecidableEq

/-- The run in which nothing was attempted. -/
def noRun : RestoreRun :=
  { downloads := 0, connects := 0, terminateCalls := 0, terminatedPids := [],
    dropCalls := 0, createCalls := 0, applyCalls := 0, localFileExists := false,
    earlyMsg := none, caught := none, uncaught := none }

/-- The tail of `restore_backup` after a backup name has been selected: the
Python falsiness check `if not backup_name`, then download, administrative
connect, terminate sessions, drop, create, `pg_restore`, and local-file
removal on success only (the removal is skipped when any exception fires). -/
def restoreFrom (cfg : Config) (nm : String) (env : RestoreEnv) : RestoreRun :=
  if nm = ("") then { noRun with earlyMsg := some RestoreMsg.missingSelector }
  else if env.downloadOk = false then
    { noRun with downloads := 1, caught := some PyExc.clientError }
  else if env.connectOk = false then
    { noRun with
      downloads := 1
      localFileExists := true
      connects := 1
      caught := some PyExc.operationalError }
  else if env.restoreOk = false then
    { downloads := 1, connects := 1, terminateCalls := 1,
      terminatedPids := terminateSet env.sessions cfg.dbName env.selfPid,
      dropCalls := 1, createCalls := 1, applyCalls := 1, localFileExists := true,
      earlyMsg := none, caught := some PyExc.calledProcessError, uncaught := none }
  else
    { downloads := 1, connects := 1, terminateCalls := 1,
      terminatedPids := terminateSet env.sessions cfg.dbName env.selfPid,
      dropCalls := 1, createCalls := 1, applyCalls := 1, localFileExists := false,
      earlyMsg := none, caught := none, uncaught := none }

/-- `restore_backup`: resolve the target by date fragment (empty bucket and
no-match cases return early with a message) or by explicit name (a missing
name returns early with a message), then run the destructive tail. -/
def restore_backup (cfg : Config) (backupName dateStr : Option String)
    (env : RestoreEnv) : RestoreRun :=
  match dateStr with
  | some frag =>
    if env.storeKeys.isEmpty then { noRun with earlyMsg := some RestoreMsg.emptyBucket }
    else
      match find_best_match env.storeKeys frag with
      | none => { noRun with earlyMsg := some RestoreMsg.noMatchForDate }
      | some nm => restoreFrom cfg nm env
  | none =>
    match backupName with
    | none => { noRun with earlyMsg := some RestoreMsg.missingSelector }
    | some nm => restoreFrom cfg nm env

/-- The configuration used by the concrete witness runs. -/
def mydbCfg : Config := ⟨("mydb")⟩

/-- The timestamp used by the concrete witness runs. -/
def witTs : Timestamp := ⟨2024, 3, 1, 9, 0, 0⟩

/-- Restore environment in which every step succeeds except `pg_restore`. -/
def c1envFail : RestoreEnv :=
  { storeKeys := [("backup_mydb_2024-03-01_09-00-00.sql")], downloadOk := true,
    connectOk := true, sessions := [], selfPid := 1, restoreOk := false }

/-- Restore environment in which every step succeeds. -/
def c1envOk : RestoreEnv :=
  { storeKeys := [("backup_mydb_2024-03-01_09-00-00.sql")], downloadOk := true,
    connectOk := true, sessions := [], selfPid := 1, restoreOk := true }

/-- Backup environment in which `pg_dump` fails leaving a partial file. -/
def c3env : BackupEnv :=
  { dumpOk := false, dumpLeftFile := true, upload := UploadOutcome.ok,
    storeKeys := [("old")] }

/-- Backup environment in which the dump succeeds and the upload fails for
missing credentials. -/
def c6env : BackupEnv :=
  { dumpOk := true, dumpLeftFile := false, upload := UploadOutcome.noCredentials,
    storeKeys := [("old")] }

/-- Backup environment in which `pg_dump` fails and leaves no file. -/
def c2benv : BackupEnv :=
  { dumpOk := false, dumpLeftFile := false, upload := UploadOutcome.ok, storeKeys := [] }

/-- Restore environment for the C2 witness. -/
def c2renv : RestoreEnv :=
  { storeKeys := [], downloadOk := true, connectOk := true, sessions := [], selfPid := 1,
    restoreOk := true }

/-- Restore environment for the C7 witness: one backup in the store. -/
def c7env : RestoreEnv :=
  { storeKeys := [("backup_mydb_2024-03-01_09-00-00.sql")], downloadOk := true,
    connectOk := true, sessions := [], selfPid := 1, restoreOk := true }

/-- Witness timestamp one second after `witTs`. -/
def witTs2 : Timestamp := ⟨2024, 3, 1, 9, 0, 1⟩

/-- The store contents for the C4 witness. -/
def c4keys : List String :=
  [("backup_mydb_2024-01-15_10-00-00.sql"), ("backup_mydb_2024-01-14_10-00-00.sql")]

/-- The store contents for the C8 witness. -/
def c8keys : List String := [("a"), ("c"), ("b")]

/-- Sessions for the C10 witness: two on the target database (one of them
the administrative session itself), one on another database. -/
def c10sessions : List Session := [⟨7, ("mydb")⟩, ⟨5, ("otherdb")⟩, ⟨1, ("mydb")⟩]

/-- Restore environment for the C10 witness. -/
def c10env : RestoreEnv :=
  { storeKeys := [("k1")], downloadOk := true, connectOk := true,
    sessions := c10sessions, selfPid := 1, restoreOk := true }

theorem lex_append_left (p r1 r2 : List Char) (h : List.Lex (· < ·) r1 r2) :
    List.Lex (· < ·) (p ++ r1) (p ++ r2) := by
  induction p with
  | nil => exact h
  | cons c cs ih => exact List.Lex.cons ih

theorem digitChar_lt (d1 d2 : Nat) (h : d1 < d2) (h2 : d2 ≤ 9) :
    Char.ofNat (48 + d1) < Char.ofNat (48 + d2) := by
  interval_cases d2 <;> interval_cases d1 <;> decide

theorem natDigits_mod (w n : Nat) : natDigits w (n % 10 ^ w) = natDigits w n := by
  induction w generalizing n with
  | zero => rfl
  | succ v ih =>
    have hdvd : 10 ^ v ∣ 10 ^ (v + 1) := pow_dvd_pow 10 (Nat.le_succ v)
    have hhead : n % 10 ^ (v + 1) / 10 ^ v % 10 = n / 10 ^ v % 10 := by
      rw [pow_succ, Nat.mod_mul_right_div_self, Nat.mod_mod_of_dvd _ (dvd_refl 10)]
    have htail : natDigits v (n % 10 ^ (v + 1)) = natDigits v n := by
      rw [← ih (n % 10 ^ (v + 1)), Nat.mod_mod_of_dvd _ hdvd, ih n]
    show Char.ofNat (48 + n % 10 ^ (v + 1) / 10 ^ v % 10) :: natDigits v (n % 10 ^ (v + 1)) =
      Char.ofNat (48 + n / 10 ^ v % 10) :: natDigits v n
    rw [hhead, htail]

theorem natDigits_lex (w : Nat) (n1 n2 : Nat) (r1 r2 : List Char) (h : n1 < n2)
    (hb : n2 < 10 ^ w) :
    List.Lex (· < ·) (natDigits w n1 ++ r1) (natDigits w n2 ++ r2) := by
  induction w generalizing n1 n2 with
  | zero => simp at hb; omega
  | succ v ih =>
    have hd2 : n2 / 10 ^ v < 10 := Nat.div_lt_of_lt_mul (by rw [← pow_succ]; exact hb)
    have hd1 : n1 / 10 ^ v < 10 :=
      lt_of_le_of_lt (Nat.div_le_div_right (le_of_lt h)) hd2
    rcases Nat.lt_or_ge (n1 / 10 ^ v) (n2 / 10 ^ v) with hlt | hge
    · show List.Lex (· < ·)
        (Char.ofNat (48 + n1 / 10 ^ v % 10) :: (natDigits v n1 ++ r1))
        (Char.ofNat (48 + n2 / 10 ^ v % 10) :: (natDigits v n2 ++ r2))
      apply List.Lex.rel
      rw [Nat.mod_eq_of_lt hd1, Nat.mod_eq_of_lt hd2]
      exact digitChar_lt _ _ hlt (by omega)
    · have heq : n1 / 10 ^ v = n2 / 10 ^ v :=
        le_antisymm (Nat.div_le_div_right (le_of_lt h)) hge
      have hmlt : n1 % 10 ^ v < n2 % 10 ^ v := by
        have e1 := Nat.div_add_mod n1 (10 ^ v)
        have e2 := Nat.div_add_mod n2 (10 ^ v)
        rw [heq] at e1
        generalize 10 ^ v * (n2 / 10 ^ v) = Q at e1 e2
        omega
      have hmb : n2 % 10 ^ v < 10 ^ v := Nat.mod_lt _ (pow_pos (by omega) v)
      show List.Lex (· < ·)
        (Char.ofNat (48 + n1 / 10 ^ v % 10) :: (natDigits v n1 ++ r1))
        (Char.ofNat (48 + n2 / 10 ^ v % 10) :: (natDigits v n2 ++ r2))
      rw [heq]
      apply List.Lex.cons
      rw [← natDigits_mod v n1, ← natDigits_mod v n2]
      exact ih _ _ hmlt hmb

theorem formatTimestamp_lex (t1 t2 : Timestamp) (h2 : t2.valid)
    (hlt : Timestamp.chronoLT t1 t2) (r1 r2 : List Char) :
    List.Lex (· < ·) (formatTimestamp t1 ++ r1) (formatTimestamp t2 ++ r2) := by
  unfold Timestamp.valid at h2
  unfold Timestamp.chronoLT at hlt
  obtain ⟨hy, hmo, hd, hh, hmi, hs⟩ := h2
  simp only [formatTimestamp, List.append_assoc, List.singleton_append]
  rcases hlt with h | ⟨e1, h | ⟨e2, h | ⟨e3, h | ⟨e4, h | ⟨e5, h⟩⟩⟩⟩⟩
  · exact natDigits_lex 4 _ _ _ _ h (by norm_num; omega)
  · rw [e1]
    apply lex_append_left
    apply List.Lex.cons
    exact natDigits_lex 2 _ _ _ _ h (by norm_num; omega)
  · rw [e1, e2]
    apply lex_append_left
    apply List.Lex.cons
    apply lex_append_left
    apply List.Lex.cons
    exact natDigits_lex 2 _ _ _ _ h (by norm_num; omega)
  · rw [e1, e2, e3]
    apply lex_append_left
    apply List.Lex.cons
    apply lex_append_left
    apply List.Lex.cons
    apply lex_append_left
    apply List.Lex.cons
    exact natDigits_lex 2 _ _ _ _ h (by norm_num; omega)
  · rw [e1, e2, e3, e4]
    apply lex_append_left
    apply List.Lex.cons
    apply lex_append_left
    apply List.Lex.cons
    apply lex_append_left
    apply List.Lex.cons
    apply lex_append_left
    apply List.Lex.cons
    exact natDigits_lex 2 _ _ _ _ h (by norm_num; omega)
  · rw [e1, e2, e3, e4, e5]
    apply lex_append_left
    apply List.Lex.cons
    apply lex_append_left
    apply List.Lex.cons
    apply lex_append_left
    apply List.Lex.cons
    apply lex_append_left
    apply List.Lex.cons
    apply lex_append_left
    apply List.Lex.cons
    exact natDigits_lex 2 _ _ _ _ h (by norm_num; omega)

/-- Claim C5: for one database name and two timestamps in the supported
second-resolution range, chronological order of the timestamps gives strict
lexical order of the generated snapshot identifiers. -/
theorem make_identifier_chrono_mono (d : String) (t1 t2 : Timestamp)
    (_h1 : t1.valid) (h2 : t2.valid) (hlt : Timestamp.chronoLT t1 t2) :
    make_identifier d t1 < make_identifier d t2 := by
  rw [String.lt_iff_toList_lt]
  show List.Lex (· < ·) (make_identifier d t1).toList (make_identifier d t2).toList
  have hdata : ∀ t : Timestamp, (make_identifier d t).toList =
      (("backup_").data ++ d.data ++ ("_").data) ++ (formatTimestamp t ++ (".sql").data) := by
    intro t
    simp [make_identifier, String.toList, String.data_append, List.append_assoc]
  rw [hdata t1, hdata t2]
  exact lex_append_left _ _ _ (formatTimestamp_lex t1 t2 h2 hlt _ _)

theorem sortedDesc_perm (l : List String) : List.Perm (sortedDesc l) l :=
  List.perm_insertionSort _ l

theorem sortedDesc_ge (l : List String) :
    (sortedDesc l).Pairwise (fun a b => b ≤ a) :=
  List.sorted_insertionSort _ l

theorem sortedDesc_head_max (l : List String) (x : String) (hx : x ∈ l) :
    x ≤ (sortedDesc l).headD ("") := by
  have hmem : x ∈ sortedDesc l := (sortedDesc_perm l).mem_iff.mpr hx
  have hp := sortedDesc_ge l
  cases hsd : sortedDesc l with
  | nil => rw [hsd] at hmem; simp at hmem
  | cons h0 t =>
    rw [hsd] at hmem hp
    rw [List.headD_cons]
    rcases List.mem_cons.mp hmem with he | ht
    · exact le_of_eq he
    · exact (List.pairwise_cons.mp hp).1 x ht

theorem sortedDesc_head_mem (l : List String) (hne : l ≠ []) :
    (sortedDesc l).headD ("") ∈ l := by
  cases hsd : sortedDesc l with
  | nil =>
    exfalso
    apply hne
    have hp := sortedDesc_perm l
    rw [hsd] at hp
    exact hp.symm.eq_nil
  | cons h0 t =>
    rw [List.headD_cons]
    exact (sortedDesc_perm l).mem_iff.mp (hsd ▸ List.mem_cons_self h0 t)

/-- Claim C4: date-fragment selection filters the listed identifiers to those
containing the fragment as a substring; it returns nothing exactly when no
listed identifier contains the fragment (in particular on an empty listing),
and any returned identifier is a listed, matching identifier that is lexically
greatest among all matches. -/
theorem find_best_match_correct (keys : List String) (fragment : String) :
    (find_best_match keys fragment = none ↔
      ∀ k ∈ keys, substrB fragment.data k.data = false)
    ∧ ∀ m, find_best_match keys fragment = some m →
        m ∈ keys ∧ substrB fragment.data m.data = true ∧
          ∀ k ∈ keys, substrB fragment.data k.data = true → k ≤ m := by
  have hfilter : ∀ k, k ∈ keys.filter (fun k => substrB fragment.data k.data) ↔
      k ∈ keys ∧ substrB fragment.data k.data = true := by
    intro k
    simp [List.mem_filter]
  by_cases hemp : (keys.filter (fun k => substrB fragment.data k.data)).isEmpty
  · have hnone : find_best_match keys fragment = none := by
      simp only [find_best_match]
      rw [if_pos hemp]
    constructor
    · rw [hnone]
      simp only [true_iff]
      intro k hk
      rw [List.isEmpty_iff, List.filter_eq_nil_iff] at hemp
      have hnk := hemp k hk
      simpa using hnk
    · intro m hm
      rw [hnone] at hm
      cases hm
  · have hne : keys.filter (fun k => substrB fragment.data k.data) ≠ [] := by
      intro hnil
      rw [List.isEmpty_iff] at hemp
      exact hemp hnil
    have hsome : find_best_match keys fragment =
        some ((sortedDesc (keys.filter (fun k => substrB fragment.data k.data))).headD ("")) := by
      simp only [find_best_match]
      rw [if_neg hemp]
    constructor
    · rw [hsome]
      constructor
      · intro h; cases h
      · intro hall
        exfalso
        apply hne
        rw [List.filter_eq_nil_iff]
        intro a ha
        simp [hall a ha]
    · intro m hm
      rw [hsome] at hm
      injection hm with hm
      subst hm
      have hmem := sortedDesc_head_mem _ hne
      rw [hfilter] at hmem
      refine ⟨hmem.1, hmem.2, ?_⟩
      intro k hk hsub
      exact sortedDesc_head_max _ k ((hfilter k).mpr ⟨hk, hsub⟩)

/-- Claim C8: the list operation prints exactly the keys of the store, sorted in
reverse lexical order (newest first), and an empty store yields an empty
listing and no error. -/
theorem list_backups_sorted_desc (keys : List String) :
    List.Perm (list_backups keys StoreListOutcome.ok).printed keys
    ∧ (list_backups keys StoreListOutcome.ok).printed.Pairwise (fun a b => b ≤ a)
    ∧ (keys = [] → (list_backups keys StoreListOutcome.ok).printed = []
        ∧ (list_backups keys StoreListOutcome.ok).caught = none
        ∧ (list_backups keys StoreListOutcome.ok).uncaught = none) := by
  cases keys with
  | nil =>
    exact ⟨List.Perm.refl _, List.Pairwise.nil, fun _ => ⟨rfl, rfl, rfl⟩⟩
  | cons k ks =>
    refine ⟨sortedDesc_perm (k :: ks), sortedDesc_ge (k :: ks), fun h => by cases h⟩

theorem terminateSet_mem (sessions : List Session) (target : String) (selfPid p : Nat) :
    p ∈ terminateSet sessions target selfPid ↔
      ∃ s ∈ sessions, s.pid = p ∧ s.datname = target ∧ p ≠ selfPid := by
  simp only [terminateSet, List.mem_map, List.mem_filter, Bool.and_eq_true, beq_iff_eq,
    bne_iff_ne, ne_eq]
  constructor
  · rintro ⟨s, ⟨hs, hdat, hpid⟩, rfl⟩
    exact ⟨s, hs, rfl, hdat, hpid⟩
  · rintro ⟨s, hs, rfl, hdat, hpid⟩
    exact ⟨s, ⟨hs, hdat, hpid⟩, rfl⟩

theorem restoreFrom_terminatedPids (cfg : Config) (nm : String) (env : RestoreEnv) :
    (restoreFrom cfg nm env).terminatedPids = [] ∨
    (restoreFrom cfg nm env).terminatedPids =
      terminateSet env.sessions cfg.dbName env.selfPid := by
  unfold restoreFrom
  split_ifs <;> simp [noRun]

theorem restore_backup_run_cases (cfg : Config) (backupName dateStr : Option String)
    (env : RestoreEnv) :
    (∃ m, restore_backup cfg backupName dateStr env = { noRun with earlyMsg := m }) ∨
    (∃ nm, ((dateStr = none ∧ backupName = some nm)
        ∨ ∃ frag, dateStr = some frag ∧ find_best_match env.storeKeys frag = some nm)
      ∧ restore_backup cfg backupName dateStr env = restoreFrom cfg nm env) := by
  rcases dateStr with _ | frag
  · rcases backupName with _ | nm
    · exact Or.inl ⟨some RestoreMsg.missingSelector, rfl⟩
    · exact Or.inr ⟨nm, Or.inl ⟨rfl, rfl⟩, rfl⟩
  · by_cases hemp : env.storeKeys.isEmpty
    · refine Or.inl ⟨some RestoreMsg.emptyBucket, ?_⟩
      simp only [restore_backup]
      rw [if_pos hemp]
    · cases hfb : find_best_match env.storeKeys frag with
      | none =>
        refine Or.inl ⟨some RestoreMsg.noMatchForDate, ?_⟩
        simp only [restore_backup]
        rw [if_neg hemp, hfb]
      | some nm =>
        refine Or.inr ⟨nm, Or.inr ⟨frag, rfl, hfb⟩, ?_⟩
        simp only [restore_backup]
        rw [if_neg hemp, hfb]

/-- Claim C10: every pid terminated by the quiesce step belongs to a session
connected to the target database and is never the pid of the administrative
session issuing the command. -/
theorem restore_terminates_only_target_sessions (cfg : Config)
    (backupName dateStr : Option String) (env : RestoreEnv) (p : Nat)
    (hp : p ∈ (restore_backup cfg backupName dateStr env).terminatedPids) :
    p ≠ env.selfPid ∧ ∃ s ∈ env.sessions, s.pid = p ∧ s.datname = cfg.dbName := by
  rcases restore_backup_run_cases cfg backupName dateStr env with ⟨m, hrun⟩ | ⟨nm, hsrc, hrun⟩
  · rw [hrun] at hp
    simp [noRun] at hp
  · rw [hrun] at hp
    rcases restoreFrom_terminatedPids cfg nm env with hc | hc
    · rw [hc] at hp
      simp at hp
    · rw [hc] at hp
      rw [terminateSet_mem] at hp
      obtain ⟨s, hs, hpid, hdat, hne⟩ := hp
      exact ⟨hne, s, hs, hpid, hdat⟩

theorem find_best_match_none (keys : List String) (fragment : String)
    (h : ∀ k ∈ keys, substrB fragment.data k.data = false) :
    find_best_match keys fragment = none := by
  simp only [find_best_match]
  rw [if_pos]
  rw [List.isEmpty_iff, List.filter_eq_nil_iff]
  intro a ha
  simp [h a ha]

theorem create_backup_uncaught (cfg : Config) (t : Timestamp) (benv : BackupEnv) :
    (create_backup cfg t benv).uncaught = none := by
  simp only [create_backup]
  by_cases hd : benv.dumpOk
  · rw [if_pos hd]
    cases benv.upload <;> rfl
  · rw [if_neg hd]

theorem restore_backup_uncaught (cfg : Config) (backupName dateStr : Option String)
    (env : RestoreEnv) :
    (restore_backup cfg backupName dateStr env).uncaught = none := by
  rcases restore_backup_run_cases cfg backupName dateStr env with ⟨m, hrun⟩ | ⟨nm, hsrc, hrun⟩
  · rw [hrun]
    rfl
  · rw [hrun]
    unfold restoreFrom
    split_ifs <;> rfl

/-- Claim C1, counterexample to the claim as stated: a concrete restore run that
reaches the ApplyDump step (one restore-apply call) with a failing restore tool
leaves the local artifact on disk instead of deleting it. -/
theorem restore_cleanup_on_failure_cex :
    (restore_backup mydbCfg (some ("backup_mydb_2024-03-01_09-00-00.sql")) none
      c1envFail).applyCalls = 1
    ∧ (restore_backup mydbCfg (some ("backup_mydb_2024-03-01_09-00-00.sql")) none
      c1envFail).localFileExists = true := by
  exact ⟨by decide, by decide⟩

/-- Claim C1 (amended): a restore run that reaches the ApplyDump step deletes the
downloaded local artifact only when the external restore tool exits zero; when
the restore-apply step fails, the cleanup is skipped and the artifact is
retained on disk. -/
theorem restore_cleanup_success_only (cfg : Config) (backupName dateStr : Option String)
    (env : RestoreEnv)
    (h : 1 ≤ (restore_backup cfg backupName dateStr env).applyCalls) :
    (restore_backup cfg backupName dateStr env).localFileExists = !env.restoreOk := by
  rcases restore_backup_run_cases cfg backupName dateStr env with ⟨m, hrun⟩ | ⟨nm, hsrc, hrun⟩
  · rw [hrun] at h
    simp [noRun] at h
  · rw [hrun] at h ⊢
    unfold restoreFrom at h ⊢
    split_ifs at h ⊢ with h1 h2 h3 h4
    · simp [noRun] at h
    · simp [noRun] at h
    · simp [noRun] at h
    · simp [h4]
    · have hr : env.restoreOk = true := by
        cases hrv : env.restoreOk
        · exact absurd hrv h4
        · rfl
      simp [hr]

/-- Claim C1 witness: the amended theorem evaluated on a concrete successful run. -/
theorem restore_cleanup_success_only_w :
    1 ≤ (restore_backup mydbCfg (some ("backup_mydb_2024-03-01_09-00-00.sql")) none
      c1envOk).applyCalls
    ∧ (restore_backup mydbCfg (some ("backup_mydb_2024-03-01_09-00-00.sql")) none
      c1envOk).localFileExists = false :=
  ⟨by decide, restore_cleanup_success_only _ _ _ _ (by decide)⟩

/-- Claim C3, counterexample to the claim as stated: a concrete run whose dump
fails leaving a partial file retains that file on disk (the claim asserts it is
removed); the no-upload and no-store-mutation parts do hold. -/
theorem dump_failure_artifact_kept_cex :
    (create_backup mydbCfg witTs c3env).localFileExists = true
    ∧ (create_backup mydbCfg witTs c3env).uploadCalls = 0
    ∧ (create_backup mydbCfg witTs c3env).storeKeys = [("old")] := by
  exact ⟨by decide, by decide, by decide⟩

/-- Claim C3 (amended): when the external dump tool exits non-zero, create_backup
fails with the dump error (CalledProcessError caught), attempts no upload and
makes no store mutation; the partially written local artifact, if any, is
retained on disk, not removed. -/
theorem dump_failure_no_upload (cfg : Config) (t : Timestamp) (env : BackupEnv)
    (h : env.dumpOk = false) :
    (create_backup cfg t env).caught = some PyExc.calledProcessError
    ∧ (create_backup cfg t env).uploadCalls = 0
    ∧ (create_backup cfg t env).storeKeys = env.storeKeys
    ∧ (create_backup cfg t env).localFileExists = env.dumpLeftFile := by
  refine ⟨?_, ?_, ?_, ?_⟩ <;> simp [create_backup, h]

/-- Claim C3 witness: the amended theorem evaluated on a concrete failing dump run. -/
theorem dump_failure_no_upload_w :
    c3env.dumpOk = false
    ∧ ((create_backup mydbCfg witTs c3env).caught = some PyExc.calledProcessError
      ∧ (create_backup mydbCfg witTs c3env).uploadCalls = 0
      ∧ (create_backup mydbCfg witTs c3env).storeKeys = [("old")]
      ∧ (create_backup mydbCfg witTs c3env).localFileExists = true) :=
  ⟨rfl, dump_failure_no_upload _ _ _ rfl⟩

/-- Claim C6: when the dump succeeds and the upload fails (credential or
connectivity error), create_backup fails with the upload error, the store is
not mutated, and the local dump artifact is retained on disk for a later
retry without re-dumping. -/
theorem upload_failure_retains_artifact (cfg : Config) (t : Timestamp) (env : BackupEnv)
    (hdump : env.dumpOk = true) (hup : env.upload ≠ UploadOutcome.ok) :
    ((create_backup cfg t env).caught = some PyExc.noCredentialsError
      ∨ (create_backup cfg t env).caught = some PyExc.otherError)
    ∧ (create_backup cfg t env).localFileExists = true
    ∧ (create_backup cfg t env).uploadCalls = 1
    ∧ (create_backup cfg t env).storeKeys = env.storeKeys := by
  cases hu : env.upload with
  | ok => exact absurd hu hup
  | noCredentials =>
    refine ⟨Or.inl ?_, ?_, ?_, ?_⟩ <;> simp [create_backup, hdump, hu]
  | clientError =>
    refine ⟨Or.inr ?_, ?_, ?_, ?_⟩ <;> simp [create_backup, hdump, hu]

/-- Claim C6 witness: the theorem evaluated on a concrete failing upload run. -/
theorem upload_failure_retains_artifact_w :
    c6env.dumpOk = true
    ∧ c6env.upload ≠ UploadOutcome.ok
    ∧ (((create_backup mydbCfg witTs c6env).caught = some PyExc.noCredentialsError
        ∨ (create_backup mydbCfg witTs c6env).caught = some PyExc.otherError)
      ∧ (create_backup mydbCfg witTs c6env).localFileExists = true
      ∧ (create_backup mydbCfg witTs c6env).uploadCalls = 1
      ∧ (create_backup mydbCfg witTs c6env).storeKeys = [("old")]) :=
  ⟨rfl, by decide, upload_failure_retains_artifact _ _ _ rfl (by decide)⟩

/-- Claim C2, counterexample to the claim as stated: a concrete backup run whose
dump step fails is a failed run, yet no exception escapes and the process exit
code is zero, not non-zero. -/
theorem exit_zero_on_failure_cex :
    (create_backup mydbCfg witTs c2benv).caught = some PyExc.calledProcessError
    ∧ exitCode (create_backup mydbCfg witTs c2benv).uncaught = 0 := by
  exact ⟨by decide, by decide⟩

/-- Claim C2 (amended): every orchestration error in backup and restore is caught
inside the operation (no exception escapes) and reported only in the printed
output, so the process exits zero on failed runs as well as on success; in the
list operation a store ClientError is likewise caught (exit zero), while a
missing-credentials error escapes uncaught and exits non-zero. -/
theorem errors_caught_exit_zero (cfg : Config) (t : Timestamp) (benv : BackupEnv)
    (backupName dateStr : Option String) (renv : RestoreEnv) (keys : List String) :
    exitCode (create_backup cfg t benv).uncaught = 0
    ∧ exitCode (restore_backup cfg backupName dateStr renv).uncaught = 0
    ∧ (benv.dumpOk = false → (create_backup cfg t benv).caught ≠ none)
    ∧ (benv.dumpOk = true → benv.upload ≠ UploadOutcome.ok →
        (create_backup cfg t benv).caught ≠ none)
    ∧ (renv.downloadOk = false →
        (restore_backup cfg (some ("x")) none renv).caught ≠ none)
    ∧ exitCode (list_backups keys StoreListOutcome.clientError).uncaught = 0
    ∧ (list_backups keys StoreListOutcome.clientError).caught = some PyExc.clientError
    ∧ exitCode (list_backups keys StoreListOutcome.noCredentials).uncaught = 1 := by
  refine ⟨?_, ?_, ?_, ?_, ?_, rfl, rfl, rfl⟩
  · rw [create_backup_uncaught]
    rfl
  · rw [restore_backup_uncaught]
    rfl
  · intro hd
    simp [create_backup, hd]
  · intro hd hu
    cases hup : benv.upload
    · exact absurd hup hu
    · simp [create_backup, hd, hup]
    · simp [create_backup, hd, hup]
  · intro hdl
    simp only [restore_backup, restoreFrom]
    rw [if_neg (by decide : ¬(("x") : String) = (""))]
    rw [if_pos hdl]
    simp

/-- Claim C2 witness: the amended theorem evaluated on a concrete failing dump run. -/
theorem errors_caught_exit_zero_w :
    exitCode (create_backup mydbCfg witTs c2benv).uncaught = 0
    ∧ (create_backup mydbCfg witTs c2benv).caught ≠ none := by
  have h := errors_caught_exit_zero mydbCfg witTs c2benv none none c2renv []
  exact ⟨h.1, h.2.2.1 rfl⟩

/-- Claim C7: no destructive database action happens before target resolution and
the administrative connection both succeed: an unmatched date fragment yields
zero downloads and zero terminate/drop/create/apply calls, a failed
administrative connection yields zero terminate/drop/create/apply calls, and
any destructive call implies the download and the connection succeeded and a
non-empty backup name had been resolved (explicitly or through date matching). -/
theorem restore_no_destruction_before_resolution (cfg : Config)
    (backupName dateStr : Option String) (env : RestoreEnv) :
    (∀ frag, dateStr = some frag →
      (∀ k ∈ env.storeKeys, substrB frag.data k.data = false) →
      (restore_backup cfg backupName dateStr env).downloads = 0
      ∧ (restore_backup cfg backupName dateStr env).terminateCalls = 0
      ∧ (restore_backup cfg backupName dateStr env).dropCalls = 0
      ∧ (restore_backup cfg backupName dateStr env).createCalls = 0
      ∧ (restore_backup cfg backupName dateStr env).applyCalls = 0)
    ∧ (env.connectOk = false →
      (restore_backup cfg backupName dateStr env).terminateCalls = 0
      ∧ (restore_backup cfg backupName dateStr env).dropCalls = 0
      ∧ (restore_backup cfg backupName dateStr env).createCalls = 0
      ∧ (restore_backup cfg backupName dateStr env).applyCalls = 0)
    ∧ (1 ≤ (restore_backup cfg backupName dateStr env).terminateCalls
        ∨ 1 ≤ (restore_backup cfg backupName dateStr env).dropCalls
        ∨ 1 ≤ (restore_backup cfg backupName dateStr env).createCalls
        ∨ 1 ≤ (restore_backup cfg backupName dateStr env).applyCalls →
      env.connectOk = true ∧ env.downloadOk = true
        ∧ ∃ nm, nm ≠ ("")
          ∧ ((dateStr = none ∧ backupName = some nm)
            ∨ ∃ frag, dateStr = some frag
                ∧ find_best_match env.storeKeys frag = some nm)) := by
  refine ⟨?_, ?_, ?_⟩
  · rintro frag rfl hnomatch
    by_cases hemp : env.storeKeys.isEmpty
    · have hrun : restore_backup cfg backupName (some frag) env =
          { noRun with earlyMsg := some RestoreMsg.emptyBucket } := by
        simp only [restore_backup]
        rw [if_pos hemp]
      rw [hrun]
      exact ⟨rfl, rfl, rfl, rfl, rfl⟩
    · have hrun : restore_backup cfg backupName (some frag) env =
          { noRun with earlyMsg := some RestoreMsg.noMatchForDate } := by
        simp only [restore_backup]
        rw [if_neg hemp, find_best_match_none _ _ hnomatch]
      rw [hrun]
      exact ⟨rfl, rfl, rfl, rfl, rfl⟩
  · intro hc
    rcases restore_backup_run_cases cfg backupName dateStr env with ⟨m, hrun⟩ | ⟨nm, hsrc, hrun⟩
    · rw [hrun]
      exact ⟨rfl, rfl, rfl, rfl⟩
    · rw [hrun]
      unfold restoreFrom
      split_ifs with h1 h2
      · exact ⟨rfl, rfl, rfl, rfl⟩
      · exact ⟨rfl, rfl, rfl, rfl⟩
      · exact ⟨rfl, rfl, rfl, rfl⟩
  · intro hdes
    rcases restore_backup_run_cases cfg backupName dateStr env with ⟨m, hrun⟩ | ⟨nm, hsrc, hrun⟩
    · rw [hrun] at hdes
      rcases hdes with h | h | h | h <;> simp [noRun] at h
    · rw [hrun] at hdes
      unfold restoreFrom at hdes
      split_ifs at hdes with h1 h2 h3 h4
      · rcases hdes with h | h | h | h <;> simp [noRun] at h
      · rcases hdes with h | h | h | h <;> simp [noRun] at h
      · rcases hdes with h | h | h | h <;> simp [noRun] at h
      · refine ⟨?_, ?_, nm, h1, hsrc⟩
        · cases hcv : env.connectOk
          · exact absurd hcv h3
          · rfl
        · cases hdv : env.downloadOk
          · exact absurd hdv h2
          · rfl
      · refine ⟨?_, ?_, nm, h1, hsrc⟩
        · cases hcv : env.connectOk
          · exact absurd hcv h3
          · rfl
        · cases hdv : env.downloadOk
          · exact absurd hdv h2
          · rfl

/-- Claim C7 witness: the theorem evaluated on a concrete store with an
unmatched date fragment. -/
theorem restore_no_destruction_before_resolution_w :
    (restore_backup mydbCfg none (some ("2030")) c7env).downloads = 0
    ∧ (restore_backup mydbCfg none (some ("2030")) c7env).terminateCalls = 0
    ∧ (restore_backup mydbCfg none (some ("2030")) c7env).dropCalls = 0
    ∧ (restore_backup mydbCfg none (some ("2030")) c7env).createCalls = 0
    ∧ (restore_backup mydbCfg none (some ("2030")) c7env).applyCalls = 0 :=
  (restore_no_destruction_before_resolution mydbCfg none (some ("2030")) c7env).1
    ("2030") rfl (by decide)

/-- Claim C9: restore invoked with neither an explicit name nor a date fragment
reports the missing selector and returns without any download, connection,
terminate, drop, create or restore-apply action, leaving all external state
untouched. -/
theorem restore_missing_selector_no_effects (cfg : Config) (env : RestoreEnv) :
    (restore_backup cfg none none env).downloads = 0
    ∧ (restore_backup cfg none none env).connects = 0
    ∧ (restore_backup cfg none none env).terminateCalls = 0
    ∧ (restore_backup cfg none none env).dropCalls = 0
    ∧ (restore_backup cfg none none env).createCalls = 0
    ∧ (restore_backup cfg none none env).applyCalls = 0
    ∧ (restore_backup cfg none none env).localFileExists = false
    ∧ (restore_backup cfg none none env).earlyMsg = some RestoreMsg.missingSelector
    ∧ (restore_backup cfg none none env).uncaught = none :=
  ⟨rfl, rfl, rfl, rfl, rfl, rfl, rfl, rfl, rfl⟩

/-- Claim C5 witness: the theorem evaluated on two concrete timestamps one
second apart. -/
theorem make_identifier_chrono_mono_w :
    Timestamp.valid witTs ∧ Timestamp.valid witTs2 ∧ Timestamp.chronoLT witTs witTs2
    ∧ make_identifier ("mydb") witTs < make_identifier ("mydb") witTs2 :=
  ⟨by decide, by decide, by decide,
    make_identifier_chrono_mono ("mydb") witTs witTs2 (by decide) (by decide) (by decide)⟩

/-- Claim C4 witness: the theorem evaluated on a concrete two-key store. -/
theorem find_best_match_correct_w :
    ("backup_mydb_2024-01-15_10-00-00.sql") ∈ c4keys
    ∧ substrB ("2024-01-15").data ("backup_mydb_2024-01-15_10-00-00.sql").data = true
    ∧ ∀ k ∈ c4keys, substrB ("2024-01-15").data k.data = true →
        k ≤ ("backup_mydb_2024-01-15_10-00-00.sql") :=
  (find_best_match_correct c4keys ("2024-01-15")).2
    ("backup_mydb_2024-01-15_10-00-00.sql") (by decide)

/-- Claim C8 witness: the theorem evaluated on a concrete three-key store. -/
theorem list_backups_sorted_desc_w :
    List.Perm (list_backups c8keys StoreListOutcome.ok).printed c8keys
    ∧ (list_backups c8keys StoreListOutcome.ok).printed.Pairwise (fun a b => b ≤ a)
    ∧ (c8keys = [] → (list_backups c8keys StoreListOutcome.ok).printed = []
        ∧ (list_backups c8keys StoreListOutcome.ok).caught = none
        ∧ (list_backups c8keys StoreListOutcome.ok).uncaught = none) :=
  list_backups_sorted_desc c8keys

/-- Claim C10 witness: the theorem evaluated on a concrete session table
containing the administrative session itself and a session on another
database. -/
theorem restore_terminates_only_target_sessions_w :
    7 ∈ (restore_backup mydbCfg (some ("k1")) none c10env).terminatedPids
    ∧ (7 ≠ 1 ∧ ∃ s ∈ c10sessions, s.pid = 7 ∧ s.datname = ("mydb")) :=
  ⟨by decide,
    restore_terminates_only_target_sessions mydbCfg (some ("k1")) none c10env 7 (by decide)⟩
